import Mathlib

/-!
Verification of the Nightmare-Library core: the sharded metadata router
(src/functions/storage-github.ts) and the cascading multi-provider storage
gateway with its health tracker (src/functions/storage-proxy.ts).

The TypeScript is shallowly embedded: strings are iterated as their lists of
UTF-16 code units, 32-bit signed JavaScript arithmetic is made explicit over
Int, the module-level health Map is an explicit association list threaded
through each operation, and each remote HTTP adapter call is abstracted by
its observable outcome (a returned result record, or a thrown exception),
which is all the gateway code inspects.
-/

/-! ## Shard hash function (storage-github.ts, hashBookId) -/

/-- JavaScript ToInt32: reduce an integer to the signed 32-bit range, the
effect of the js expression (hash & hash). -/
def toInt32 (n : Int) : Int :=
  (n + 2147483648) % 4294967296 - 2147483648

/-- One loop iteration of hashBookId as written in the source:
hash = ((hash << 5) - hash) + char; hash = hash & hash.
The js shift (hash << 5) itself truncates to 32 bits, hence the inner
toInt32 around h * 32; the subtraction and addition are exact in doubles
and the final (hash & hash) truncates again. -/
def hashStepSrc (h : Int) (c : Nat) : Int :=
  toInt32 (toInt32 (h * 32) - h + c)

/-- One iteration as the spec words it: accumulator = accumulator * 31 +
char_code, truncated to 32 bits (wrapping signed arithmetic). -/
def hashStepSpec (h : Int) (c : Nat) : Int :=
  toInt32 (31 * h + c)

/-- hashBookId from storage-github.ts: fold the code units of the book id,
then Math.abs(hash) % 10. -/
def hashBookId (bookId : List Nat) : Nat :=
  (bookId.foldl hashStepSrc 0).natAbs % 10

theorem toInt32_emod (x : Int) : toInt32 x % 4294967296 = x % 4294967296 := by
  unfold toInt32
  omega

theorem hashStepSrc_eq_spec (h : Int) (c : Nat) :
    hashStepSrc h c = hashStepSpec h c := by
  unfold hashStepSrc hashStepSpec toInt32
  omega

theorem foldl_hashStepSrc_eq_spec :
    ∀ (l : List Nat) (a : Int), l.foldl hashStepSrc a = l.foldl hashStepSpec a
  | [], _ => rfl
  | c :: l, a => by
    simp only [List.foldl_cons, hashStepSrc_eq_spec]
    exact foldl_hashStepSrc_eq_spec l _

/-- C2: hashBookId equals the absolute value, modulo 10, of the accumulator
obtained by the wrapping 32-bit signed recurrence a := a * 31 + char_code;
the result is below 10; the empty key hashes to 0; the function is
deterministic in its key. -/
theorem hashBookId_spec (key k2 : List Nat) :
    hashBookId key = (key.foldl hashStepSpec 0).natAbs % 10 ∧
    hashBookId key < 10 ∧
    hashBookId [] = 0 ∧
    (key = k2 → hashBookId key = hashBookId k2) := by
  refine ⟨?_, ?_, rfl, ?_⟩
  · unfold hashBookId
    rw [foldl_hashStepSrc_eq_spec]
  · exact Nat.mod_lt _ (by omega)
  · intro h
    rw [h]

/-- Concrete instance of C2: the key "hi" (code units 104, 105) hashes as
claimed, and the hypotheses of hashBookId_spec hold at that key. -/
theorem hashBookId_spec_witness :
    hashBookId [104, 105] = ((([104, 105] : List Nat).foldl hashStepSpec 0).natAbs % 10) ∧
    hashBookId [104, 105] < 10 ∧
    hashBookId [] = 0 ∧
    hashBookId [104, 105] = 9 := by
  have h := hashBookId_spec [104, 105] [104, 105]
  exact ⟨h.1, h.2.1, h.2.2.1, by decide⟩

/-! ## Provider health tracker (storage-proxy.ts) -/

/-- The ten storage provider identifiers of StorageType. -/
inductive StorageType where
  | gdrive | dropbox | onedrive | pcloud | box
  | yandex | koofr | b2 | mega | github
deriving DecidableEq, Repr

/-- ProviderHealth record from storage-proxy.ts. -/
structure ProviderHealth where
  type : StorageType
  healthy : Bool
  lastCheck : Nat
  errorCount : Nat
deriving DecidableEq, Repr

/-- The module-level providerHealth Map, modelled as an insertion-ordered
association list (the js Map preserves insertion order; set on an existing
key replaces in place, otherwise appends). -/
def HealthMap : Type := List (StorageType × ProviderHealth)

instance : DecidableEq HealthMap := by
  unfold HealthMap
  exact inferInstance

/-- providerHealth.get -/
def getEntry : HealthMap → StorageType → Option ProviderHealth
  | [], _ => none
  | (t', h) :: rest, t => if t' = t then some h else getEntry rest t

/-- providerHealth.set: replace the entry in place, or append a new one. -/
def setEntry : HealthMap → StorageType → ProviderHealth → HealthMap
  | [], t, h => [(t, h)]
  | (t', h') :: rest, t, h =>
    if t' = t then (t, h) :: rest else (t', h') :: setEntry rest t h

/-- updateProviderHealth from storage-proxy.ts: read (or lazily default) the
record, stamp lastCheck with the current time, then on success reset to
healthy with errorCount 0, and on failure increment errorCount, marking
unhealthy once it reaches 3. -/
def updateProviderHealth (m : HealthMap) (now : Nat) (t : StorageType)
    (success : Bool) : HealthMap :=
  let h0 := (getEntry m t).getD { type := t, healthy := true, lastCheck := 0, errorCount := 0 }
  let h1 := { h0 with lastCheck := now }
  let h2 :=
    if success then { h1 with healthy := true, errorCount := 0 }
    else
      { h1 with errorCount := h1.errorCount + 1,
                healthy := if 3 ≤ h1.errorCount + 1 then false else h1.healthy }
  setEntry m t h2

/-- isProviderHealthy from storage-proxy.ts. An absent record reads as
healthy without creating an entry. A record older than 5 minutes
(300000 ms) is mutated in place back to healthy with errorCount 0 (its
lastCheck is not touched) and reads as healthy. Otherwise the stored flag
is returned. The pair carries the possibly mutated map. -/
def isProviderHealthy (m : HealthMap) (now : Nat) (t : StorageType) :
    Bool × HealthMap :=
  match getEntry m t with
  | none => (true, m)
  | some h =>
    if 300000 < now - h.lastCheck then
      (true, setEntry m t { h with healthy := true, errorCount := 0 })
    else (h.healthy, m)

theorem getEntry_setEntry_self (m : HealthMap) (t : StorageType) (h : ProviderHealth) :
    getEntry (setEntry m t h) t = some h := by
  induction m with
  | nil => simp [setEntry, getEntry]
  | cons p rest ih =>
    obtain ⟨t', h'⟩ := p
    by_cases ht : t' = t
    · simp [setEntry, getEntry, ht]
    · simp [setEntry, getEntry, ht, ih]

theorem getEntry_update_true (m : HealthMap) (n : Nat) (t : StorageType) :
    ∃ h, getEntry (updateProviderHealth m n t true) t = some h ∧
      h.healthy = true ∧ h.errorCount = 0 ∧ h.lastCheck = n := by
  unfold updateProviderHealth
  simp only [if_pos]
  exact ⟨_, getEntry_setEntry_self m t _, rfl, rfl, rfl⟩

theorem getEntry_update_false (m : HealthMap) (n : Nat) (t : StorageType) :
    ∃ h, getEntry (updateProviderHealth m n t false) t = some h ∧
      h.lastCheck = n ∧
      h.errorCount = ((getEntry m t).map ProviderHealth.errorCount).getD 0 + 1 ∧
      (3 ≤ h.errorCount → h.healthy = false) := by
  unfold updateProviderHealth
  refine ⟨_, getEntry_setEntry_self m t _, rfl, ?_, ?_⟩
  · cases getEntry m t <;> rfl
  · intro h3
    by_cases hc :
        3 ≤ ((getEntry m t).getD
          { type := t, healthy := true, lastCheck := 0, errorCount := 0 }).errorCount + 1
    · simp [hc]
    · exfalso
      apply hc
      cases hgm : getEntry m t <;> rw [hgm] at h3 <;> simpa using h3

theorem isProviderHealthy_fst_of_entry (m : HealthMap) (now : Nat) (t : StorageType)
    (h : ProviderHealth) (he : getEntry m t = some h)
    (hrec : ¬ 300000 < now - h.lastCheck) :
    (isProviderHealthy m now t).1 = h.healthy := by
  unfold isProviderHealthy
  rw [he]
  simp [hrec]

theorem isProviderHealthy_fst_true_of_healthy (m : HealthMap) (now : Nat)
    (t : StorageType) (h : ProviderHealth) (he : getEntry m t = some h)
    (hh : h.healthy = true) : (isProviderHealthy m now t).1 = true := by
  unfold isProviderHealthy
  rw [he]
  by_cases hrec : 300000 < now - h.lastCheck
  · simp [hrec]
  · simp [hrec, hh]

/-- C4: from any starting state, three consecutive failure observations for
provider t (no intervening success) leave it unhealthy: a read within the
5-minute window of the last observation returns false. One subsequent
success observation makes the read return true (at any time) and resets the
stored failure count to 0. -/
theorem health_threshold_and_success_reset (m : HealthMap) (t : StorageType)
    (n1 n2 n3 tr ns tr2 : Nat) (hgap : tr - n3 ≤ 300000) :
    (isProviderHealthy
       (updateProviderHealth (updateProviderHealth (updateProviderHealth m n1 t false)
         n2 t false) n3 t false) tr t).1 = false ∧
    (isProviderHealthy
       (updateProviderHealth (updateProviderHealth (updateProviderHealth
         (updateProviderHealth m n1 t false) n2 t false) n3 t false) ns t true)
       tr2 t).1 = true ∧
    ((getEntry
       (updateProviderHealth (updateProviderHealth (updateProviderHealth
         (updateProviderHealth m n1 t false) n2 t false) n3 t false) ns t true)
       t).map ProviderHealth.errorCount) = some 0 := by
  obtain ⟨h1, he1, -, hc1, -⟩ := getEntry_update_false m n1 t
  obtain ⟨h2, he2, -, hc2, -⟩ := getEntry_update_false (updateProviderHealth m n1 t false) n2 t
  obtain ⟨h3, he3, hl3, hc3, hh3⟩ :=
    getEntry_update_false
      (updateProviderHealth (updateProviderHealth m n1 t false) n2 t false) n3 t
  rw [he1] at hc2
  rw [he2] at hc3
  simp only [Option.map_some', Option.getD_some] at hc2 hc3
  have hcount : 3 ≤ h3.errorCount := by omega
  obtain ⟨hs, hes, hsh, hsc, -⟩ :=
    getEntry_update_true
      (updateProviderHealth (updateProviderHealth (updateProviderHealth m n1 t false)
        n2 t false) n3 t false) ns t
  refine ⟨?_, ?_, ?_⟩
  · rw [isProviderHealthy_fst_of_entry _ _ _ _ he3 (by omega)]
    exact hh3 hcount
  · exact isProviderHealthy_fst_true_of_healthy _ _ _ _ hes hsh
  · rw [hes]
    simp [hsc]

/-- Concrete instance of C4 at provider gdrive with all observation times 0. -/
theorem health_threshold_and_success_reset_witness :
    (isProviderHealthy
       (updateProviderHealth (updateProviderHealth (updateProviderHealth [] 0
         StorageType.gdrive false) 0 StorageType.gdrive false) 0 StorageType.gdrive false)
       0 StorageType.gdrive).1 = false ∧
    (isProviderHealthy
       (updateProviderHealth (updateProviderHealth (updateProviderHealth
         (updateProviderHealth [] 0 StorageType.gdrive false) 0 StorageType.gdrive false)
         0 StorageType.gdrive false) 0 StorageType.gdrive true)
       0 StorageType.gdrive).1 = true ∧
    ((getEntry
       (updateProviderHealth (updateProviderHealth (updateProviderHealth
         (updateProviderHealth [] 0 StorageType.gdrive false) 0 StorageType.gdrive false)
         0 StorageType.gdrive false) 0 StorageType.gdrive true)
       StorageType.gdrive).map ProviderHealth.errorCount) = some 0 :=
  health_threshold_and_success_reset [] StorageType.gdrive 0 0 0 0 0 0 (by omega)

/-- C5: a stored unhealthy record whose last observation lies more than
5 minutes in the past reads as healthy, and the read itself rewrites the
stored record to healthy with errorCount 0 (lastCheck untouched, so no
success observation is recorded). -/
theorem passive_recovery (m : HealthMap) (now : Nat) (t : StorageType)
    (h : ProviderHealth) (he : getEntry m t = some h) (hu : h.healthy = false)
    (hw : 300000 < now - h.lastCheck) :
    (isProviderHealthy m now t).1 = true ∧
    getEntry (isProviderHealthy m now t).2 t =
      some { h with healthy := true, errorCount := 0 } := by
  have hred : isProviderHealthy m now t =
      (true, setEntry m t { h with healthy := true, errorCount := 0 }) := by
    unfold isProviderHealthy
    rw [he]
    simp [hw]
  rw [hred]
  exact ⟨rfl, getEntry_setEntry_self m t _⟩

/-- Concrete instance of C5: gdrive unhealthy since time 0, read at time
300001. -/
theorem passive_recovery_witness :
    (isProviderHealthy
      [(StorageType.gdrive,
        { type := StorageType.gdrive, healthy := false, lastCheck := 0, errorCount := 3 })]
      300001 StorageType.gdrive).1 = true ∧
    getEntry
      (isProviderHealthy
        [(StorageType.gdrive,
          { type := StorageType.gdrive, healthy := false, lastCheck := 0, errorCount := 3 })]
        300001 StorageType.gdrive).2 StorageType.gdrive =
      some { type := StorageType.gdrive, healthy := true, lastCheck := 0, errorCount := 0 } :=
  passive_recovery
    [(StorageType.gdrive,
      { type := StorageType.gdrive, healthy := false, lastCheck := 0, errorCount := 3 })]
    300001 StorageType.gdrive
    { type := StorageType.gdrive, healthy := false, lastCheck := 0, errorCount := 3 }
    rfl rfl (by decide)

/-- C10: a provider with no stored record reads as healthy and the read
leaves the map unchanged (no record is created). -/
theorem isProviderHealthy_no_entry (m : HealthMap) (now : Nat) (t : StorageType)
    (he : getEntry m t = none) : isProviderHealthy m now t = (true, m) := by
  unfold isProviderHealthy
  rw [he]

/-- Concrete instance of C10: the empty map. -/
theorem isProviderHealthy_no_entry_witness :
    isProviderHealthy [] 12345 StorageType.mega = (true, ([] : HealthMap)) :=
  isProviderHealthy_no_entry [] 12345 StorageType.mega rfl

/-! ## Metadata router (storage-github.ts, DatabaseRouter) -/

/-- The observable outcome of prepare(sql).all() on one shard for a fixed
statement: either the query throws, or it returns a D1 result object with a
success flag and an optional row array. -/
inductive ShardOutcome (α : Type) where
  | throws
  | result (success : Bool) (results : Option (List α))
deriving DecidableEq

/-- DatabaseRouter.queryAll from storage-github.ts: loop i = 0..9, run the
statement on shard i inside try/catch; on a thrown error continue; on a
returned object, append its (optionally mapped) rows only when the success
flag is set and the row array is present (a js truthiness test; an empty
array is truthy). The embedding is total: the catch clause means queryAll
itself never throws. -/
def queryAll {α : Type} (shards : Fin 10 → ShardOutcome α)
    (mapFn : Option (α → α)) : List α :=
  (List.finRange 10).foldl
    (fun results i =>
      match shards i with
      | ShardOutcome.throws => results
      | ShardOutcome.result s r =>
        match s, r with
        | true, some rs =>
          results ++ (match mapFn with | some f => rs.map f | none => rs)
        | _, _ => results)
    []

/-- Spec-side description of one shard's contribution: the rows of a shard
that succeeded, and zero rows for a shard that threw or reported
non-success. -/
def succeededRows {α : Type} : ShardOutcome α → List α
  | ShardOutcome.result true (some rs) => rs
  | _ => []

theorem foldl_append_contrib {α β : Type} (g : β → List α) :
    ∀ (l : List β) (acc : List α),
      l.foldl (fun a b => a ++ g b) acc = acc ++ (l.map g).flatten
  | [], acc => by simp
  | b :: l, acc => by
    simp only [List.foldl_cons, List.map_cons, List.flatten_cons]
    rw [foldl_append_contrib g l (acc ++ g b)]
    simp [List.append_assoc]

/-- C3: queryAll with no row mapper returns exactly the concatenation, in
shard-index order 0..9 and with row order preserved inside each shard, of
the rows of the shards that succeeded; a shard that throws or reports
non-success contributes zero rows, and the fold itself never throws. -/
theorem queryAll_partial_merge {α : Type} (shards : Fin 10 → ShardOutcome α) :
    queryAll shards none =
      ((List.finRange 10).map (fun i => succeededRows (shards i))).flatten := by
  unfold queryAll
  have hfun :
      (fun (results : List α) (i : Fin 10) =>
        match shards i with
        | ShardOutcome.throws => results
        | ShardOutcome.result s r =>
          match s, r with
          | true, some rs =>
            results ++ (match (none : Option (α → α)) with
              | some f => rs.map f | none => rs)
          | _, _ => results) =
      fun results i => results ++ succeededRows (shards i) := by
    funext results i
    cases h : shards i with
    | throws => simp [succeededRows]
    | result s r =>
      cases s with
      | true =>
        cases r with
        | none => simp [succeededRows]
        | some rs => simp [succeededRows]
      | false => cases r <;> simp [succeededRows]
  rw [hfun, foldl_append_contrib (fun i => succeededRows (shards i)) (List.finRange 10) []]
  simp

/-- DatabaseRouter holds the list of shard connections; the backing store
handle type is abstract. -/
structure DatabaseRouter (α : Type) where
  databases : List α

/-- The DatabaseRouter constructor: throws unless given exactly 10
databases; the throw is modelled as Except.error. -/
def DatabaseRouter.mkChecked {α : Type} (databases : List α) :
    Except String (DatabaseRouter α) :=
  if databases.length ≠ 10 then
    Except.error "DatabaseRouter requires exactly 10 D1 databases"
  else Except.ok { databases := databases }

/-- The environment binding name DB_i. -/
def dbKey (i : Nat) : String := "DB_" ++ toString i

/-- The collection loop of createDatabaseRouter: for each index in turn,
look up the binding and throw on the first absent (js-falsy) one. -/
def collectDbs {α : Type} (env : String → Option α) : List Nat → Except String (List α)
  | [] => Except.ok []
  | i :: is =>
    match env (dbKey i) with
    | none =>
      Except.error ("Missing database binding: " ++ dbKey i ++
        ". Ensure all 10 databases (DB_1 to DB_10) are configured in Cloudflare.")
    | some db =>
      match collectDbs env is with
      | Except.error e => Except.error e
      | Except.ok dbs => Except.ok (db :: dbs)

/-- createDatabaseRouter from storage-github.ts: collect DB_1 .. DB_10 and
hand them to the constructor. -/
def createDatabaseRouter {α : Type} (env : String → Option α) :
    Except String (DatabaseRouter α) :=
  match collectDbs env ((List.range 10).map (fun i => i + 1)) with
  | Except.error e => Except.error e
  | Except.ok dbs => DatabaseRouter.mkChecked dbs

theorem collectDbs_error_of_missing {α : Type} (env : String → Option α) :
    ∀ (is : List Nat), (∃ i ∈ is, env (dbKey i) = none) →
      ∃ e, collectDbs env is = Except.error e
  | [], h => absurd h (by simp)
  | i :: is, h => by
    unfold collectDbs
    cases hi : env (dbKey i) with
    | none => exact ⟨_, rfl⟩
    | some db =>
      obtain ⟨j, hj, hjn⟩ := h
      rcases List.mem_cons.mp hj with rfl | hjs
      · rw [hi] at hjn
        exact absurd hjn (by simp)
      · obtain ⟨e, he⟩ := collectDbs_error_of_missing env is ⟨j, hjs, hjn⟩
        rw [he]
        exact ⟨e, rfl⟩

theorem collectDbs_ok_of_present {α : Type} (env : String → Option α) :
    ∀ (is : List Nat), (∀ i ∈ is, (env (dbKey i)).isSome) →
      ∃ dbs, collectDbs env is = Except.ok dbs ∧ dbs.length = is.length
  | [], _ => ⟨[], rfl, rfl⟩
  | i :: is, h => by
    unfold collectDbs
    cases hi : env (dbKey i) with
    | none =>
      have := h i (by simp)
      rw [hi] at this
      exact absurd this (by simp)
    | some db =>
      obtain ⟨dbs, hdbs, hlen⟩ :=
        collectDbs_ok_of_present env is (fun j hj => h j (List.mem_cons_of_mem i hj))
      rw [hdbs]
      exact ⟨db :: dbs, rfl, by simp [hlen]⟩

/-- C8: the constructor rejects any list whose length is not exactly 10 and
accepts a list of length 10; createDatabaseRouter fails at construction
time when any of DB_1 .. DB_10 is absent from the environment, and
succeeds when all ten are present. -/
theorem router_construction_checks {α : Type} (dbs bad : List α)
    (env1 env2 : String → Option α)
    (hbad : bad.length ≠ 10) (hgood : dbs.length = 10)
    (hmiss : ∃ i, 1 ≤ i ∧ i ≤ 10 ∧ env1 (dbKey i) = none)
    (hall : ∀ i, 1 ≤ i → i ≤ 10 → (env2 (dbKey i)).isSome) :
    (∃ e, DatabaseRouter.mkChecked bad = Except.error e) ∧
    DatabaseRouter.mkChecked dbs = Except.ok { databases := dbs } ∧
    (∃ e, createDatabaseRouter env1 = Except.error e) ∧
    (∃ r, createDatabaseRouter env2 = Except.ok r) := by
  have hmem : ∀ i : Nat, i ∈ (List.range 10).map (fun j => j + 1) ↔ 1 ≤ i ∧ i ≤ 10 := by
    intro i
    simp only [List.mem_map, List.mem_range]
    constructor
    · rintro ⟨j, hj, rfl⟩
      omega
    · rintro ⟨h1, h2⟩
      exact ⟨i - 1, by omega, by omega⟩
  refine ⟨?_, ?_, ?_, ?_⟩
  · refine ⟨"DatabaseRouter requires exactly 10 D1 databases", ?_⟩
    unfold DatabaseRouter.mkChecked
    rw [if_pos hbad]
  · unfold DatabaseRouter.mkChecked
    rw [if_neg (by omega)]
  · obtain ⟨i, h1, h2, hn⟩ := hmiss
    obtain ⟨e, he⟩ := collectDbs_error_of_missing env1 ((List.range 10).map (fun j => j + 1))
      ⟨i, (hmem i).mpr ⟨h1, h2⟩, hn⟩
    unfold createDatabaseRouter
    rw [he]
    exact ⟨e, rfl⟩
  · obtain ⟨dbs2, hdbs2, hlen2⟩ :=
      collectDbs_ok_of_present env2 ((List.range 10).map (fun j => j + 1))
        (fun i hi => hall i ((hmem i).mp hi).1 ((hmem i).mp hi).2)
    have hred : createDatabaseRouter env2 = DatabaseRouter.mkChecked dbs2 := by
      unfold createDatabaseRouter
      rw [hdbs2]
    have hlen10 : dbs2.length = 10 := by simpa using hlen2
    rw [hred]
    unfold DatabaseRouter.mkChecked
    rw [if_neg (by omega)]
    exact ⟨_, rfl⟩

/-- Concrete instance of C8: a 3-element list is rejected, a 10-element
list is accepted, the all-absent environment fails, the all-present
environment succeeds. -/
theorem router_construction_checks_witness :
    (∃ e, DatabaseRouter.mkChecked (List.replicate 3 ()) = Except.error e) ∧
    DatabaseRouter.mkChecked (List.replicate 10 ()) =
      Except.ok { databases := List.replicate 10 () } ∧
    (∃ e, createDatabaseRouter (fun _ => (none : Option Unit)) = Except.error e) ∧
    (∃ r, createDatabaseRouter (fun _ => some ()) = Except.ok r) :=
  router_construction_checks (List.replicate 10 ()) (List.replicate 3 ())
    (fun _ => none) (fun _ => some ())
    (by decide) (by decide)
    ⟨1, by omega, by omega, rfl⟩
    (fun i h1 h2 => rfl)

/-! ## Cascading storage gateway (storage-proxy.ts) -/

/-- StorageConfig reduced to the fields the gateway orchestration inspects:
the provider tag and the optional numeric priority. The per-vendor
credential fields are only ever read inside the adapters, which are
abstracted by their outcome. -/
structure StorageConfig where
  type : StorageType
  priority : Option Int
deriving DecidableEq, Repr

/-- StorageResult from storage-proxy.ts. -/
structure StorageResult where
  success : Bool
  storageId : Option String
  url : Option String
  provider : Option StorageType
  error : Option String
deriving DecidableEq, Repr

/-- The observable outcome of one adapter invocation: a returned
StorageResult, or a thrown exception (whose stringified message is
carried). -/
inductive AdapterOutcome where
  | ok (r : StorageResult)
  | thrown (msg : String)
deriving DecidableEq, Repr

/-- Whether an adapter invocation counted as a success for the cascade:
a returned result with success true; a throw never does. -/
def attemptSuccess : AdapterOutcome → Bool
  | AdapterOutcome.ok r => r.success
  | AdapterOutcome.thrown _ => false

/-- The js expression (config.priority || 0). -/
def configPriority (c : StorageConfig) : Int :=
  c.priority.getD 0

/-- The comparator's health term: 0 for a currently healthy provider, 1
otherwise. The comparator reads isProviderHealthy against the entry map;
its only possible mutation there (passive recovery) never changes the
boolean any same-instant read returns, so the sort key is taken against
the incoming map. -/
def healthBit (m : HealthMap) (now : Nat) (c : StorageConfig) : Nat :=
  if (isProviderHealthy m now c.type).1 then 0 else 1

/-- The total preorder realised by the js comparator
(a.priority || 0) - (b.priority || 0), breaking ties by health (healthy
first): priority strictly smaller, or equal priority and health bit not
larger. -/
def keyLe (m : HealthMap) (now : Nat) (a b : StorageConfig) : Prop :=
  configPriority a < configPriority b ∨
    (configPriority a = configPriority b ∧ healthBit m now a ≤ healthBit m now b)

instance keyLeDecidable (m : HealthMap) (now : Nat) : DecidableRel (keyLe m now) :=
  fun a b =>
    inferInstanceAs (Decidable (configPriority a < configPriority b ∨
      (configPriority a = configPriority b ∧ healthBit m now a ≤ healthBit m now b)))

/-- Array.prototype.sort with the priority-then-health comparator: the js
sort is stable, and a stable sort with respect to a total preorder is
exactly insertion sort. -/
def sortConfigs (m : HealthMap) (now : Nat) (configs : List StorageConfig) :
    List StorageConfig :=
  List.insertionSort (keyLe m now) configs

/-- Array.prototype.indexOf restricted to an element of the list: the first
index at which it occurs (js === on two references that are duplicates of
one list element coincides with structural equality here). -/
def idxOf (a : StorageConfig) : List StorageConfig → Nat
  | [] => 0
  | b :: l => if b = a then 0 else idxOf a l + 1

/-- The instrumented outcome of the upload loop: the returned
StorageResult, the final health map, each adapter invocation with its
outcome in invocation order, and each updateProviderHealth call in call
order. -/
structure CascadeOut where
  result : StorageResult
  health : HealthMap
  attempts : List (StorageConfig × AdapterOutcome)
  obs : List (StorageType × Bool)
deriving DecidableEq

/-- The aggregate error returned when the loop exhausts all candidates. -/
def allFailedResult : StorageResult :=
  { success := false, storageId := none, url := none, provider := none,
    error := some "All storage providers failed" }

/-- A failed attempt (throw, or returned failure): the loop records the
failure observation for the provider and continues, so the attempt and the
observation are prepended to whatever the rest of the loop produces. -/
def failStep (c : StorageConfig) (o : AdapterOutcome) (out : CascadeOut) : CascadeOut :=
  { result := out.result, health := out.health,
    attempts := (c, o) :: out.attempts, obs := (c.type, false) :: out.obs }

/-- The for-loop of uploadFile over the sorted candidate list. full is the
whole sorted array (consulted by the indexOf last-resort test), rest the
candidates still to visit. Each iteration first runs the isProviderHealthy
read (with its possible passive-recovery mutation), skips an unhealthy
candidate that is not in the last position of the full array, and
otherwise invokes the adapter: on a returned success a success observation
is recorded, the provider tag is attached and the loop returns; on a throw
or a returned failure a failure observation is recorded and the loop
continues. -/
def cascadeFrom (A : StorageConfig → AdapterOutcome) (now : Nat)
    (full : List StorageConfig) :
    List StorageConfig → HealthMap → CascadeOut
  | [], m => { result := allFailedResult, health := m, attempts := [], obs := [] }
  | c :: rest, m =>
    if (isProviderHealthy m now c.type).1 = false ∧ idxOf c full < full.length - 1 then
      cascadeFrom A now full rest (isProviderHealthy m now c.type).2
    else
      match A c with
      | AdapterOutcome.ok r =>
        if r.success then
          { result := { r with provider := some c.type },
            health := updateProviderHealth (isProviderHealthy m now c.type).2 now c.type true,
            attempts := [(c, AdapterOutcome.ok r)],
            obs := [(c.type, true)] }
        else
          failStep c (AdapterOutcome.ok r)
            (cascadeFrom A now full rest
              (updateProviderHealth (isProviderHealthy m now c.type).2 now c.type false))
      | AdapterOutcome.thrown msg =>
        failStep c (AdapterOutcome.thrown msg)
          (cascadeFrom A now full rest
            (updateProviderHealth (isProviderHealthy m now c.type).2 now c.type false))

/-- uploadFile from storage-proxy.ts: sort the candidate configs by
priority then health, then run the cascade loop. The adapter dispatch
switch is abstracted by A, applied to the candidate config together with
the file id, payload bytes and content type fixed for this call. -/
def uploadFile (A : StorageConfig → String → List Nat → String → AdapterOutcome)
    (m : HealthMap) (now : Nat) (configs : List StorageConfig)
    (fileId : String) (data : List Nat) (contentType : String) : CascadeOut :=
  cascadeFrom (fun c => A c fileId data contentType) now
    (sortConfigs m now configs) (sortConfigs m now configs) m

theorem failStep_result (c : StorageConfig) (o : AdapterOutcome) (out : CascadeOut) :
    (failStep c o out).result = out.result := rfl

theorem failStep_health (c : StorageConfig) (o : AdapterOutcome) (out : CascadeOut) :
    (failStep c o out).health = out.health := rfl

theorem failStep_attempts (c : StorageConfig) (o : AdapterOutcome) (out : CascadeOut) :
    (failStep c o out).attempts = (c, o) :: out.attempts := rfl

theorem failStep_obs (c : StorageConfig) (o : AdapterOutcome) (out : CascadeOut) :
    (failStep c o out).obs = (c.type, false) :: out.obs := rfl

theorem cascadeFrom_cons_skip (A : StorageConfig → AdapterOutcome) (now : Nat)
    (full : List StorageConfig) (c : StorageConfig) (rest : List StorageConfig)
    (m : HealthMap)
    (h : (isProviderHealthy m now c.type).1 = false ∧ idxOf c full < full.length - 1) :
    cascadeFrom A now full (c :: rest) m =
      cascadeFrom A now full rest (isProviderHealthy m now c.type).2 := by
  simp only [cascadeFrom]
  rw [if_pos h]

theorem cascadeFrom_cons_success (A : StorageConfig → AdapterOutcome) (now : Nat)
    (full : List StorageConfig) (c : StorageConfig) (rest : List StorageConfig)
    (m : HealthMap) (r : StorageResult)
    (h : ¬ ((isProviderHealthy m now c.type).1 = false ∧ idxOf c full < full.length - 1))
    (hA : A c = AdapterOutcome.ok r) (hr : r.success = true) :
    cascadeFrom A now full (c :: rest) m =
      { result := { r with provider := some c.type },
        health := updateProviderHealth (isProviderHealthy m now c.type).2 now c.type true,
        attempts := [(c, AdapterOutcome.ok r)],
        obs := [(c.type, true)] } := by
  simp only [cascadeFrom]
  rw [if_neg h, hA]
  simp [hr]

theorem cascadeFrom_cons_fail (A : StorageConfig → AdapterOutcome) (now : Nat)
    (full : List StorageConfig) (c : StorageConfig) (rest : List StorageConfig)
    (m : HealthMap) (o : AdapterOutcome)
    (h : ¬ ((isProviderHealthy m now c.type).1 = false ∧ idxOf c full < full.length - 1))
    (hA : A c = o) (hfail : attemptSuccess o = false) :
    cascadeFrom A now full (c :: rest) m =
      failStep c o (cascadeFrom A now full rest
        (updateProviderHealth (isProviderHealthy m now c.type).2 now c.type false)) := by
  simp only [cascadeFrom]
  rw [if_neg h, hA]
  cases o with
  | ok r =>
    simp only [attemptSuccess] at hfail
    simp [hfail]
  | thrown msg => rfl

theorem mem_dropLast_cons {α : Type} {p a : α} {l : List α}
    (h : p ∈ (a :: l).dropLast) : p = a ∨ p ∈ l.dropLast := by
  cases l with
  | nil => simp at h
  | cons b l2 =>
    rw [List.dropLast_cons₂] at h
    exact List.mem_cons.mp h

theorem cascadeFrom_spec (A : StorageConfig → AdapterOutcome) (now : Nat)
    (full rest : List StorageConfig) (m : HealthMap) :
    ((cascadeFrom A now full rest m).attempts.map Prod.fst).Sublist rest ∧
    (cascadeFrom A now full rest m).obs =
      (cascadeFrom A now full rest m).attempts.map
        (fun p => (p.1.type, attemptSuccess p.2)) ∧
    (∀ p ∈ (cascadeFrom A now full rest m).attempts.dropLast,
      attemptSuccess p.2 = false) ∧
    ((cascadeFrom A now full rest m).result.success = true →
      ∃ pre c r,
        (cascadeFrom A now full rest m).attempts = pre ++ [(c, AdapterOutcome.ok r)] ∧
        r.success = true ∧
        (cascadeFrom A now full rest m).result = { r with provider := some c.type } ∧
        ∃ h, getEntry (cascadeFrom A now full rest m).health c.type = some h ∧
          h.healthy = true ∧ h.errorCount = 0 ∧ h.lastCheck = now) ∧
    ((cascadeFrom A now full rest m).result.success = false →
      ∀ p ∈ (cascadeFrom A now full rest m).attempts, attemptSuccess p.2 = false) := by
  induction rest generalizing m with
  | nil =>
    simp only [cascadeFrom]
    refine ⟨List.nil_sublist _, rfl, ?_, ?_, ?_⟩
    · intro p hp
      simp at hp
    · intro hs
      simp [allFailedResult] at hs
    · intro _ p hp
      simp at hp
  | cons c rest ih =>
    by_cases hskip :
        (isProviderHealthy m now c.type).1 = false ∧ idxOf c full < full.length - 1
    · rw [cascadeFrom_cons_skip A now full c rest m hskip]
      obtain ⟨ih1, ih2, ih3, ih4, ih5⟩ := ih (isProviderHealthy m now c.type).2
      exact ⟨ih1.cons c, ih2, ih3, ih4, ih5⟩
    · cases hA : A c with
      | ok r =>
        by_cases hr : r.success = true
        · rw [cascadeFrom_cons_success A now full c rest m r hskip hA hr]
          refine ⟨?_, ?_, ?_, ?_, ?_⟩
          · exact (List.nil_sublist rest).cons₂ c
          · simp [attemptSuccess, hr]
          · intro p hp
            simp at hp
          · intro _
            exact ⟨[], c, r, rfl, hr, rfl, getEntry_update_true _ now c.type⟩
          · intro hfalse
            exfalso
            simp only at hfalse
            rw [hr] at hfalse
            exact absurd hfalse (by simp)
        · have hrf : r.success = false := by simpa using hr
          rw [cascadeFrom_cons_fail A now full c rest m (AdapterOutcome.ok r) hskip hA
            (by simp [attemptSuccess, hrf])]
          obtain ⟨ih1, ih2, ih3, ih4, ih5⟩ :=
            ih (updateProviderHealth (isProviderHealthy m now c.type).2 now c.type false)
          refine ⟨?_, ?_, ?_, ?_, ?_⟩
          · simp only [failStep_attempts, List.map_cons]
            exact ih1.cons₂ c
          · simp only [failStep_obs, failStep_attempts, List.map_cons]
            rw [ih2]
            simp [attemptSuccess, hrf]
          · intro p hp
            simp only [failStep_attempts] at hp
            rcases mem_dropLast_cons hp with h1 | h2
            · rw [h1]
              simp [attemptSuccess, hrf]
            · exact ih3 p h2
          · intro hs
            simp only [failStep_result] at hs
            obtain ⟨pre, c1, r1, ha, hr1, hres, hh⟩ := ih4 hs
            refine ⟨(c, AdapterOutcome.ok r) :: pre, c1, r1, ?_, hr1, ?_, ?_⟩
            · simp only [failStep_attempts]
              rw [ha, List.cons_append]
            · simp only [failStep_result]
              exact hres
            · simp only [failStep_health]
              exact hh
          · intro hf p hp
            simp only [failStep_attempts] at hp
            rcases List.mem_cons.mp hp with h1 | h2
            · rw [h1]
              simp [attemptSuccess, hrf]
            · simp only [failStep_result] at hf
              exact ih5 hf p h2
      | thrown msg =>
        rw [cascadeFrom_cons_fail A now full c rest m (AdapterOutcome.thrown msg) hskip hA rfl]
        obtain ⟨ih1, ih2, ih3, ih4, ih5⟩ :=
          ih (updateProviderHealth (isProviderHealthy m now c.type).2 now c.type false)
        refine ⟨?_, ?_, ?_, ?_, ?_⟩
        · simp only [failStep_attempts, List.map_cons]
          exact ih1.cons₂ c
        · simp only [failStep_obs, failStep_attempts, List.map_cons]
          rw [ih2]
          simp [attemptSuccess]
        · intro p hp
          simp only [failStep_attempts] at hp
          rcases mem_dropLast_cons hp with h1 | h2
          · rw [h1]
            simp [attemptSuccess]
          · exact ih3 p h2
        · intro hs
          simp only [failStep_result] at hs
          obtain ⟨pre, c1, r1, ha, hr1, hres, hh⟩ := ih4 hs
          refine ⟨(c, AdapterOutcome.thrown msg) :: pre, c1, r1, ?_, hr1, ?_, ?_⟩
          · simp only [failStep_attempts]
            rw [ha, List.cons_append]
          · simp only [failStep_result]
            exact hres
          · simp only [failStep_health]
            exact hh
        · intro hf p hp
          simp only [failStep_attempts] at hp
          rcases List.mem_cons.mp hp with h1 | h2
          · rw [h1]
            simp [attemptSuccess]
          · simp only [failStep_result] at hf
            exact ih5 hf p h2

/-- C1: for every candidate list, health state, time, file id, payload and
content type, uploadFile invokes adapters one at a time following the
sorted candidate order (the invoked candidates form a sublist of the
sorted list, so no candidate is retried); every adapter invocation records
exactly one health observation, a success observation exactly when the
adapter returned a success result; every attempt before the last one
failed; and when the call succeeds, the attempt list ends with the single
succeeding adapter (later candidates are never invoked), the returned
result is the adapter result with the provider field set to that
candidate's identifier, and the tracker holds a success observation for it
(healthy, errorCount 0, lastCheck stamped now). -/
theorem uploadFile_cascade_order
    (A : StorageConfig → String → List Nat → String → AdapterOutcome)
    (m : HealthMap) (now : Nat) (configs : List StorageConfig)
    (fileId : String) (data : List Nat) (contentType : String) :
    ((uploadFile A m now configs fileId data contentType).attempts.map Prod.fst).Sublist
      (sortConfigs m now configs) ∧
    (uploadFile A m now configs fileId data contentType).obs =
      (uploadFile A m now configs fileId data contentType).attempts.map
        (fun p => (p.1.type, attemptSuccess p.2)) ∧
    (∀ p ∈ (uploadFile A m now configs fileId data contentType).attempts.dropLast,
      attemptSuccess p.2 = false) ∧
    ((uploadFile A m now configs fileId data contentType).result.success = true →
      ∃ pre c r,
        (uploadFile A m now configs fileId data contentType).attempts =
          pre ++ [(c, AdapterOutcome.ok r)] ∧
        r.success = true ∧
        (uploadFile A m now configs fileId data contentType).result =
          { r with provider := some c.type } ∧
        ∃ h, getEntry (uploadFile A m now configs fileId data contentType).health c.type =
            some h ∧
          h.healthy = true ∧ h.errorCount = 0 ∧ h.lastCheck = now) ∧
    ((uploadFile A m now configs fileId data contentType).result.success = false →
      ∀ p ∈ (uploadFile A m now configs fileId data contentType).attempts,
        attemptSuccess p.2 = false) :=
  cascadeFrom_spec (fun c => A c fileId data contentType) now
    (sortConfigs m now configs) (sortConfigs m now configs) m

/-- Concrete instance of C1: a single always-succeeding gdrive candidate;
the success branch of uploadFile_cascade_order is discharged at it. -/
theorem uploadFile_cascade_order_witness :
    ∃ pre c r,
      (uploadFile (fun _ _ _ _ => AdapterOutcome.ok
          { success := true, storageId := some "id", url := some "u",
            provider := none, error := none })
        [] 0 [{ type := StorageType.gdrive, priority := some 1 }]
        "f" [] "ct").attempts = pre ++ [(c, AdapterOutcome.ok r)] ∧
      r.success = true ∧
      (uploadFile (fun _ _ _ _ => AdapterOutcome.ok
          { success := true, storageId := some "id", url := some "u",
            provider := none, error := none })
        [] 0 [{ type := StorageType.gdrive, priority := some 1 }]
        "f" [] "ct").result = { r with provider := some c.type } ∧
      ∃ h, getEntry
          (uploadFile (fun _ _ _ _ => AdapterOutcome.ok
              { success := true, storageId := some "id", url := some "u",
                provider := none, error := none })
            [] 0 [{ type := StorageType.gdrive, priority := some 1 }]
            "f" [] "ct").health c.type = some h ∧
        h.healthy = true ∧ h.errorCount = 0 ∧ h.lastCheck = 0 :=
  (uploadFile_cascade_order
    (fun _ _ _ _ => AdapterOutcome.ok
      { success := true, storageId := some "id", url := some "u",
        provider := none, error := none })
    [] 0 [{ type := StorageType.gdrive, priority := some 1 }]
    "f" [] "ct").2.2.2.1 (by decide)

theorem cascadeFrom_all_fail (A : StorageConfig → AdapterOutcome) (now : Nat)
    (full : List StorageConfig) :
    ∀ (rest : List StorageConfig) (m : HealthMap),
      (∀ c ∈ rest, attemptSuccess (A c) = false) →
      (cascadeFrom A now full rest m).result = allFailedResult
  | [], m, _ => rfl
  | c :: rest, m, hall => by
    by_cases hskip :
        (isProviderHealthy m now c.type).1 = false ∧ idxOf c full < full.length - 1
    · rw [cascadeFrom_cons_skip A now full c rest m hskip]
      exact cascadeFrom_all_fail A now full rest _
        (fun d hd => hall d (List.mem_cons_of_mem c hd))
    · cases hA : A c with
      | ok r =>
        have hrf : r.success = false := by
          have := hall c (List.mem_cons_self c rest)
          rw [hA] at this
          simpa [attemptSuccess] using this
        rw [cascadeFrom_cons_fail A now full c rest m (AdapterOutcome.ok r) hskip hA
          (by simp [attemptSuccess, hrf])]
        rw [failStep_result]
        exact cascadeFrom_all_fail A now full rest _
          (fun d hd => hall d (List.mem_cons_of_mem c hd))
      | thrown msg =>
        rw [cascadeFrom_cons_fail A now full c rest m (AdapterOutcome.thrown msg) hskip hA rfl]
        rw [failStep_result]
        exact cascadeFrom_all_fail A now full rest _
          (fun d hd => hall d (List.mem_cons_of_mem c hd))

/-- C6: when every candidate's adapter fails (throws or returns a failure
result), uploadFile returns the single aggregate error result: success
false and the error message "All storage providers failed", with no
storage id, url or provider attached (not a per-provider list of causes). -/
theorem uploadFile_all_providers_failed
    (A : StorageConfig → String → List Nat → String → AdapterOutcome)
    (m : HealthMap) (now : Nat) (configs : List StorageConfig)
    (fileId : String) (data : List Nat) (contentType : String)
    (hfail : ∀ c ∈ configs, attemptSuccess (A c fileId data contentType) = false) :
    (uploadFile A m now configs fileId data contentType).result = allFailedResult ∧
    (uploadFile A m now configs fileId data contentType).result.success = false ∧
    (uploadFile A m now configs fileId data contentType).result.error =
      some "All storage providers failed" := by
  have hres : (uploadFile A m now configs fileId data contentType).result = allFailedResult :=
    cascadeFrom_all_fail (fun c => A c fileId data contentType) now
      (sortConfigs m now configs) (sortConfigs m now configs) m
      (fun c hc => hfail c ((List.perm_insertionSort (keyLe m now) configs).subset hc))
  rw [hres]
  exact ⟨rfl, rfl, rfl⟩

/-- Concrete instance of C6: two candidates whose adapters throw. -/
theorem uploadFile_all_providers_failed_witness :
    (uploadFile (fun _ _ _ _ => AdapterOutcome.thrown "boom") [] 0
      [{ type := StorageType.gdrive, priority := some 1 },
       { type := StorageType.dropbox, priority := some 2 }] "f" [] "ct").result =
      allFailedResult ∧
    (uploadFile (fun _ _ _ _ => AdapterOutcome.thrown "boom") [] 0
      [{ type := StorageType.gdrive, priority := some 1 },
       { type := StorageType.dropbox, priority := some 2 }] "f" [] "ct").result.success =
      false ∧
    (uploadFile (fun _ _ _ _ => AdapterOutcome.thrown "boom") [] 0
      [{ type := StorageType.gdrive, priority := some 1 },
       { type := StorageType.dropbox, priority := some 2 }] "f" [] "ct").result.error =
      some "All storage providers failed" :=
  uploadFile_all_providers_failed (fun _ _ _ _ => AdapterOutcome.thrown "boom") [] 0
    [{ type := StorageType.gdrive, priority := some 1 },
     { type := StorageType.dropbox, priority := some 2 }] "f" [] "ct"
    (fun c hc => rfl)

theorem idxOf_append_last (c : StorageConfig) (pre : List StorageConfig)
    (hnotin : c ∉ pre) : idxOf c (pre ++ [c]) = pre.length := by
  induction pre with
  | nil => simp [idxOf]
  | cons b l ih =>
    have hb : ¬ b = c := fun h => hnotin (h ▸ List.mem_cons_self b l)
    have ih2 := ih (fun h => hnotin (List.mem_cons_of_mem b h))
    simp [idxOf, hb, ih2]

theorem cascadeFrom_attempts_ne_nil (A : StorageConfig → AdapterOutcome) (now : Nat)
    (full : List StorageConfig) (hnd : full.Nodup) :
    ∀ (rest : List StorageConfig) (m : HealthMap), rest ≠ [] → rest.IsSuffix full →
      (cascadeFrom A now full rest m).attempts ≠ []
  | [], _, hne, _ => absurd rfl hne
  | c :: rest, m, _, hsuf => by
    by_cases hskip :
        (isProviderHealthy m now c.type).1 = false ∧ idxOf c full < full.length - 1
    · cases hrest : rest with
      | nil =>
        exfalso
        rw [hrest] at hsuf
        obtain ⟨pre, hpre⟩ := hsuf
        have hcpre : c ∉ pre := by
          intro hmem
          rw [← hpre] at hnd
          rcases List.nodup_append.mp hnd with ⟨-, -, hdisj⟩
          exact hdisj hmem (List.mem_cons_self c [])
        have hidx : idxOf c full = full.length - 1 := by
          rw [← hpre, idxOf_append_last c pre hcpre]
          simp
        omega
      | cons d rest2 =>
        rw [cascadeFrom_cons_skip A now full c (d :: rest2) m hskip]
        refine cascadeFrom_attempts_ne_nil A now full hnd (d :: rest2) _ (by simp) ?_
        rw [hrest] at hsuf
        obtain ⟨pre, hpre⟩ := hsuf
        exact ⟨pre ++ [c], by rw [List.append_assoc]; simpa using hpre⟩
    · cases hA : A c with
      | ok r =>
        by_cases hr : r.success = true
        · rw [cascadeFrom_cons_success A now full c rest m r hskip hA hr]
          simp
        · have hrf : r.success = false := by simpa using hr
          rw [cascadeFrom_cons_fail A now full c rest m (AdapterOutcome.ok r) hskip hA
            (by simp [attemptSuccess, hrf])]
          simp [failStep_attempts]
      | thrown msg =>
        rw [cascadeFrom_cons_fail A now full c rest m (AdapterOutcome.thrown msg) hskip hA rfl]
        simp [failStep_attempts]

/-- Counterexample to C7 as stated: the same candidate config passed twice
(in js, the same config object occurring twice in the array). The provider
is marked unhealthy with a fresh lastCheck, every adapter would succeed,
and the candidate list is non-empty, yet indexOf finds the first occurrence
for both loop iterations, so both are skipped as non-last, no adapter is
ever attempted, and the aggregate failure is returned. -/
theorem uploadFile_zero_attempts_on_duplicate :
    (uploadFile (fun _ _ _ _ => AdapterOutcome.ok
        { success := true, storageId := some "s", url := none,
          provider := none, error := none })
      [(StorageType.gdrive,
        { type := StorageType.gdrive, healthy := false, lastCheck := 1000, errorCount := 3 })]
      1000
      [{ type := StorageType.gdrive, priority := some 1 },
       { type := StorageType.gdrive, priority := some 1 }]
      "f" [] "ct").attempts = [] ∧
    (uploadFile (fun _ _ _ _ => AdapterOutcome.ok
        { success := true, storageId := some "s", url := none,
          provider := none, error := none })
      [(StorageType.gdrive,
        { type := StorageType.gdrive, healthy := false, lastCheck := 1000, errorCount := 3 })]
      1000
      [{ type := StorageType.gdrive, priority := some 1 },
       { type := StorageType.gdrive, priority := some 1 }]
      "f" [] "ct").result.success = false ∧
    ([{ type := StorageType.gdrive, priority := some 1 },
      { type := StorageType.gdrive, priority := some 1 }] : List StorageConfig) ≠ [] := by
  refine ⟨by decide, by decide, by decide⟩

/-- C7 amended: uploadFile considers the candidates in the order produced
by the stable sort on configured priority ascending with current health
(healthy before unhealthy) as secondary key — the considered list is a
permutation of the candidates, sorted under that key order — and, provided
no candidate occurs twice in the list (distinct config objects), at least
one adapter is attempted before the aggregate failure can be returned,
even when every provider is marked unhealthy. -/
theorem uploadFile_sorted_and_last_resort
    (A : StorageConfig → String → List Nat → String → AdapterOutcome)
    (m : HealthMap) (now : Nat) (configs : List StorageConfig)
    (fileId : String) (data : List Nat) (contentType : String)
    (hne : configs ≠ []) (hnd : configs.Nodup) :
    List.Perm (sortConfigs m now configs) configs ∧
    List.Sorted (keyLe m now) (sortConfigs m now configs) ∧
    (uploadFile A m now configs fileId data contentType).attempts ≠ [] := by
  have hperm : List.Perm (sortConfigs m now configs) configs :=
    List.perm_insertionSort (keyLe m now) configs
  refine ⟨hperm, ?_, ?_⟩
  · haveI ht : IsTotal StorageConfig (keyLe m now) :=
      ⟨fun a b => by unfold keyLe; omega⟩
    haveI htr : IsTrans StorageConfig (keyLe m now) :=
      ⟨fun a b c hab hbc => by unfold keyLe at hab hbc ⊢; omega⟩
    exact List.sorted_insertionSort (keyLe m now) configs
  · have hsne : sortConfigs m now configs ≠ [] := by
      intro h
      apply hne
      have hl := hperm.length_eq
      rw [h] at hl
      exact List.length_eq_zero.mp hl.symm
    have hsnd : (sortConfigs m now configs).Nodup := hperm.nodup_iff.mpr hnd
    exact cascadeFrom_attempts_ne_nil (fun c => A c fileId data contentType) now
      (sortConfigs m now configs) hsnd (sortConfigs m now configs) m hsne
      (List.suffix_refl _)

/-- Concrete instance of the amended C7: two distinct candidates, both
providers marked unhealthy with fresh observations; the sort is a sorted
permutation and one adapter still gets attempted. -/
theorem uploadFile_sorted_and_last_resort_witness :
    List.Perm
      (sortConfigs
        [(StorageType.gdrive,
          { type := StorageType.gdrive, healthy := false, lastCheck := 7, errorCount := 3 }),
         (StorageType.dropbox,
          { type := StorageType.dropbox, healthy := false, lastCheck := 7, errorCount := 3 })]
        7
        [{ type := StorageType.gdrive, priority := some 2 },
         { type := StorageType.dropbox, priority := some 1 }])
      [{ type := StorageType.gdrive, priority := some 2 },
       { type := StorageType.dropbox, priority := some 1 }] ∧
    List.Sorted
      (keyLe
        [(StorageType.gdrive,
          { type := StorageType.gdrive, healthy := false, lastCheck := 7, errorCount := 3 }),
         (StorageType.dropbox,
          { type := StorageType.dropbox, healthy := false, lastCheck := 7, errorCount := 3 })]
        7)
      (sortConfigs
        [(StorageType.gdrive,
          { type := StorageType.gdrive, healthy := false, lastCheck := 7, errorCount := 3 }),
         (StorageType.dropbox,
          { type := StorageType.dropbox, healthy := false, lastCheck := 7, errorCount := 3 })]
        7
        [{ type := StorageType.gdrive, priority := some 2 },
         { type := StorageType.dropbox, priority := some 1 }]) ∧
    (uploadFile (fun _ _ _ _ => AdapterOutcome.thrown "down")
      [(StorageType.gdrive,
        { type := StorageType.gdrive, healthy := false, lastCheck := 7, errorCount := 3 }),
       (StorageType.dropbox,
        { type := StorageType.dropbox, healthy := false, lastCheck := 7, errorCount := 3 })]
      7
      [{ type := StorageType.gdrive, priority := some 2 },
       { type := StorageType.dropbox, priority := some 1 }]
      "f" [] "ct").attempts ≠ [] :=
  uploadFile_sorted_and_last_resort (fun _ _ _ _ => AdapterOutcome.thrown "down")
    [(StorageType.gdrive,
      { type := StorageType.gdrive, healthy := false, lastCheck := 7, errorCount := 3 }),
     (StorageType.dropbox,
      { type := StorageType.dropbox, healthy := false, lastCheck := 7, errorCount := 3 })]
    7
    [{ type := StorageType.gdrive, priority := some 2 },
     { type := StorageType.dropbox, priority := some 1 }]
    "f" [] "ct" (by decide) (by decide)

/-! ## Single-provider download and delete (storage-proxy.ts) -/

/-- The result shape of downloadFile; bytes are a list of byte values. -/
structure DownloadResult where
  success : Bool
  data : Option (List Nat)
  contentType : Option String
  error : Option String
deriving DecidableEq

/-- Outcome of the dispatched downloadFromX adapter call: a returned
result record, or a thrown exception carrying its stringified message. -/
inductive DownloadOutcome where
  | ok (r : DownloadResult)
  | thrown (msg : String)
deriving DecidableEq

/-- downloadFile from storage-proxy.ts: dispatch on config.type to the
single named provider's adapter and return its result unchanged; a thrown
exception is caught and converted to a failure result carrying the
stringified error. The function never consults or updates the
providerHealth map, so the map is threaded through unchanged. -/
def downloadFile (m : HealthMap) (o : DownloadOutcome) :
    DownloadResult × HealthMap :=
  match o with
  | DownloadOutcome.ok r => (r, m)
  | DownloadOutcome.thrown msg =>
    ({ success := false, data := none, contentType := none, error := some msg }, m)

/-- The result shape of deleteFile. -/
structure DeleteResult where
  success : Bool
  error : Option String
deriving DecidableEq

/-- Outcome of the dispatched deleteFromX adapter call. -/
inductive DeleteOutcome where
  | ok (r : DeleteResult)
  | thrown (msg : String)
deriving DecidableEq

/-- deleteFile from storage-proxy.ts: dispatch on config.type to the named
provider's adapter, catching throws into a failure result. In the github
branch a successful delete then reads the undeclared module variable
githubTotalSize (its declaration is commented out at the top of the file),
which throws a ReferenceError that the catch converts into a failure
result. No branch consults or updates the providerHealth map. -/
def deleteFile (m : HealthMap) (t : StorageType) (o : DeleteOutcome) :
    DeleteResult × HealthMap :=
  match o with
  | DeleteOutcome.thrown msg => ({ success := false, error := some msg }, m)
  | DeleteOutcome.ok r =>
    if t = StorageType.github ∧ r.success = true then
      ({ success := false,
         error := some "ReferenceError: githubTotalSize is not defined" }, m)
    else (r, m)

/-- Counterexample to C9 as stated: a download whose adapter call throws,
starting from an empty health map. The error surfaces to the caller, but
the health map stays empty — no failure observation is recorded for any
provider — whereas recording one would have created an entry, as
updateProviderHealth does. -/
theorem downloadFile_no_health_observation :
    (downloadFile [] (DownloadOutcome.thrown "TypeError: fetch failed")).2 =
      ([] : HealthMap) ∧
    (downloadFile [] (DownloadOutcome.thrown "TypeError: fetch failed")).1.success =
      false ∧
    (deleteFile [] StorageType.gdrive (DeleteOutcome.thrown "TypeError: fetch failed")).2 =
      ([] : HealthMap) ∧
    updateProviderHealth [] 0 StorageType.gdrive false ≠ ([] : HealthMap) := by
  refine ⟨rfl, rfl, rfl, by decide⟩

/-- C9 amended: only failing upload attempts are observed by the Health
Tracker — a one-candidate upload whose adapter fails records exactly one
failure observation for that provider. Failing download and delete calls
are not observed: both thread the health map through unchanged, and their
error surfaces directly to the caller (the thrown message, stringified, as
the error field of a failure result) with no fallback attempt. -/
theorem storage_call_health_observation (m : HealthMap) (t : StorageType)
    (o : DownloadOutcome) (o2 : DeleteOutcome) (msg msg2 : String)
    (A : StorageConfig → String → List Nat → String → AdapterOutcome)
    (c : StorageConfig) (now : Nat) (fileId : String) (data : List Nat)
    (contentType : String) :
    (downloadFile m o).2 = m ∧
    (deleteFile m t o2).2 = m ∧
    (o = DownloadOutcome.thrown msg →
      (downloadFile m o).1.success = false ∧ (downloadFile m o).1.error = some msg) ∧
    (o2 = DeleteOutcome.thrown msg2 →
      (deleteFile m t o2).1.success = false ∧ (deleteFile m t o2).1.error = some msg2) ∧
    (attemptSuccess (A c fileId data contentType) = false →
      (uploadFile A m now [c] fileId data contentType).obs = [(c.type, false)]) := by
  refine ⟨?_, ?_, ?_, ?_, ?_⟩
  · cases o <;> rfl
  · cases o2 with
    | thrown msg3 => rfl
    | ok r =>
      unfold deleteFile
      by_cases hg : t = StorageType.github ∧ r.success = true <;> simp [hg]
  · intro ho
    rw [ho]
    exact ⟨rfl, rfl⟩
  · intro ho
    rw [ho]
    exact ⟨rfl, rfl⟩
  · intro hfail
    have hsort : sortConfigs m now [c] = [c] := by
      simp [sortConfigs]
    show (cascadeFrom (fun d => A d fileId data contentType) now
        (sortConfigs m now [c]) (sortConfigs m now [c]) m).obs = [(c.type, false)]
    rw [hsort]
    have hskip : ¬ ((isProviderHealthy m now c.type).1 = false ∧
        idxOf c [c] < ([c] : List StorageConfig).length - 1) := by
      intro h
      have h2 := h.2
      simp [idxOf] at h2
    rw [cascadeFrom_cons_fail (fun d => A d fileId data contentType) now [c] c [] m
      (A c fileId data contentType) hskip rfl hfail]
    rfl

/-- Concrete instance of the amended C9: a thrown download and delete, a
failing one-candidate upload. -/
theorem storage_call_health_observation_witness :
    (downloadFile [] (DownloadOutcome.thrown "boom")).2 = ([] : HealthMap) ∧
    (deleteFile [] StorageType.github (DeleteOutcome.thrown "boom2")).2 =
      ([] : HealthMap) ∧
    ((DownloadOutcome.thrown "boom" : DownloadOutcome) = DownloadOutcome.thrown "boom" →
      (downloadFile [] (DownloadOutcome.thrown "boom")).1.success = false ∧
      (downloadFile [] (DownloadOutcome.thrown "boom")).1.error = some "boom") ∧
    ((DeleteOutcome.thrown "boom2" : DeleteOutcome) = DeleteOutcome.thrown "boom2" →
      (deleteFile [] StorageType.github (DeleteOutcome.thrown "boom2")).1.success = false ∧
      (deleteFile [] StorageType.github (DeleteOutcome.thrown "boom2")).1.error =
        some "boom2") ∧
    (attemptSuccess ((fun (_ : StorageConfig) (_ : String) (_ : List Nat) (_ : String) =>
          AdapterOutcome.thrown "down")
        ({ type := StorageType.mega, priority := none } : StorageConfig)
        "f" ([] : List Nat) "ct") = false →
      (uploadFile (fun _ _ _ _ => AdapterOutcome.thrown "down") [] 3
        [{ type := StorageType.mega, priority := none }] "f" ([] : List Nat) "ct").obs =
        [(StorageType.mega, false)]) :=
  storage_call_health_observation [] StorageType.github
    (DownloadOutcome.thrown "boom") (DeleteOutcome.thrown "boom2") "boom" "boom2"
    (fun _ _ _ _ => AdapterOutcome.thrown "down")
    { type := StorageType.mega, priority := none } 3 "f" ([] : List Nat) "ct"
